import Mathlib

/-!
Verification development for the go-nagios library (github.com/atc0005/go-nagios).

The first portion embeds, as pure Lean functions, the `ExitState` plugin
aggregate of `nagios.go`: its `ReturnCheckResults` renderer (output is
accumulated into a string instead of being printed; the terminal `os.Exit`
is modelled by returning the exit status code alongside the rendered
output), `AddPerfData`/`Validate`, and the panic-override block.  Go
errors are modelled as `String`; a `[]error` slice that may hold nil
entries is `List (Option String)`; the branding callback is modelled by
the string it would return.  A recovered panic (`recover()` yielding a
non-nil value together with `debug.Stack()`) is modelled by an
`Option (String × String)` argument to the finalize hook.

The second portion models, from the specification, the subsystems whose
implementation files are not part of this source snapshot (only their
tests are): the threshold range mini-grammar (`ParseRangeString` /
`CheckRange`), the threshold evaluator (`EvaluateThreshold`), the
performance-data line tokenizer (`ParsePerfData`), and the de-duplicating
`Plugin` performance-data collection (`AddPerfData` keyed by the
lowercased label).  Floating point values are modelled by `ℚ`; the
decimal literals exercised here are exact in both representations.
-/

namespace GoNagios

/-- Nagios plugin/service check exit codes (`nagios.go`). -/
def StateOKExitCode : Int := 0

def StateWARNINGExitCode : Int := 1

def StateCRITICALExitCode : Int := 2

def StateUNKNOWNExitCode : Int := 3

def StateDEPENDENTExitCode : Int := 4

/-- Nagios plugin/service check state labels (`nagios.go`). -/
def StateOKLabel : String := "OK"

def StateWARNINGLabel : String := "WARNING"

def StateCRITICALLabel : String := "CRITICAL"

def StateUNKNOWNLabel : String := "UNKNOWN"

def StateDEPENDENTLabel : String := "DEPENDENT"

/-- Newline sequence used with formatted service and host check output
(`nagios.go`): a space followed by a UNIX line feed. -/
def CheckOutputEOL : String := " \n"

/-- Default header text for the thresholds section (`nagios.go`). -/
def defaultThresholdsLabel : String := "THRESHOLDS"

/-- Default header text for the errors section (`nagios.go`). -/
def defaultErrorsLabel : String := "ERRORS"

/-- Default header text for the detailed info section (`nagios.go`). -/
def defaultDetailedInfoLabel : String := "DETAILED INFO"

/-- Decidable equality for `Except`, needed to evaluate threshold-field
parsing results on concrete inputs. -/
instance {ε α : Type} [DecidableEq ε] [DecidableEq α] : DecidableEq (Except ε α) := fun a b =>
  match a, b with
  | .error x, .error y =>
    if h : x = y then isTrue (by rw [h]) else isFalse fun hh => h (Except.error.inj hh)
  | .error _, .ok _ => isFalse fun hh => Except.noConfusion hh
  | .ok _, .error _ => isFalse fun hh => Except.noConfusion hh
  | .ok x, .ok y =>
    if h : x = y then isTrue (by rw [h]) else isFalse fun hh => h (Except.ok.inj hh)

/-- The single-quote character, written via its code point so the source
stays free of stray quote characters. -/
def singleQuoteChar : Char := Char.ofNat 39

/-- The double-quote character, written via its code point. -/
def doubleQuoteChar : Char := Char.ofNat 34

/-- The single-quote character as a one-character string. -/
def singleQuote : String := String.mk [singleQuoteChar]

/-- `PerformanceData` represents the performance data generated by a
Nagios plugin (`nagios.go`): all fields are strings, exactly as in the
source struct. -/
structure PerformanceData where
  Label : String := ""
  Value : String := ""
  UnitOfMeasurement : String := ""
  Warn : String := ""
  Crit : String := ""
  Min : String := ""
  Max : String := ""
deriving DecidableEq, Repr

/-- `PerformanceData.Validate` performs basic validation (`nagios.go`):
an error is returned for an empty label or an empty value, in that
order; `none` means validation succeeded. -/
def PerformanceData.Validate (pd : PerformanceData) : Option String :=
  if pd.Label = "" then some "provided performance data missing required label"
  else if pd.Value = "" then some "provided performance data missing required value"
  else none

/-- First validation error of a list of performance data values, mirroring
the `for i := range pd` loop of `AddPerfData` in `nagios.go`. -/
def firstValidateError : List PerformanceData → Option String
  | [] => none
  | d :: ds =>
    match d.Validate with
    | some e => some e
    | none => firstValidateError ds

/-- `ExitState` represents the last known execution state of the
application (`nagios.go`).  Go `error` values are modelled as strings;
the `Errors []error` slice may hold nil entries, hence
`List (Option String)`; the branding callback is modelled by the string
it would return. -/
structure ExitState where
  LastError : Option String := none
  Errors : List (Option String) := []
  ExitStatusCode : Int := 0
  ServiceOutput : String := ""
  LongServiceOutput : String := ""
  perfData : List PerformanceData := []
  WarningThreshold : String := ""
  CriticalThreshold : String := ""
  thresholdsLabel : String := ""
  errorsLabel : String := ""
  detailedInfoLabel : String := ""
  BrandingCallback : Option String := none
deriving DecidableEq, Repr

/-- Custom thresholds label text if set, else the default (`nagios.go`). -/
def ExitState.getThresholdsLabelText (es : ExitState) : String :=
  if es.thresholdsLabel ≠ "" then es.thresholdsLabel else defaultThresholdsLabel

/-- Custom errors label text if set, else the default (`nagios.go`). -/
def ExitState.getErrorsLabelText (es : ExitState) : String :=
  if es.errorsLabel ≠ "" then es.errorsLabel else defaultErrorsLabel

/-- Custom detailed info label text if set, else the default (`nagios.go`). -/
def ExitState.getDetailedInfoLabelText (es : ExitState) : String :=
  if es.detailedInfoLabel ≠ "" then es.detailedInfoLabel else defaultDetailedInfoLabel

/-- One `* <err>` bullet per non-nil recorded error, mirroring the
`for _, err := range es.Errors` loop of `ReturnCheckResults`. -/
def renderErrorItems : List (Option String) → String
  | [] => ""
  | some e :: rest => "* " ++ e ++ CheckOutputEOL ++ renderErrorItems rest
  | none :: rest => renderErrorItems rest

/-- The THRESHOLDS and DETAILED INFO sections, emitted by
`ReturnCheckResults` only when `LongServiceOutput` is non-empty. -/
def ExitState.renderThresholdsAndDetails (es : ExitState) : String :=
  CheckOutputEOL ++ "**" ++ es.getThresholdsLabelText ++ "**" ++ CheckOutputEOL
  ++ (if es.CriticalThreshold ≠ "" ∨ es.WarningThreshold ≠ "" then
        CheckOutputEOL
        ++ (if es.CriticalThreshold ≠ "" then
              "* " ++ StateCRITICALLabel ++ ": " ++ es.CriticalThreshold ++ CheckOutputEOL
            else "")
        ++ (if es.WarningThreshold ≠ "" then
              "* " ++ StateWARNINGLabel ++ ": " ++ es.WarningThreshold ++ CheckOutputEOL
            else "")
      else CheckOutputEOL ++ "* Not specified" ++ CheckOutputEOL)
  ++ CheckOutputEOL ++ "**" ++ es.getDetailedInfoLabelText ++ "**" ++ CheckOutputEOL
  ++ CheckOutputEOL ++ es.LongServiceOutput ++ CheckOutputEOL

/-- The ERRORS section block of `ReturnCheckResults`, guarded by
`es.LongServiceOutput != "" || es.LastError != nil || len(es.Errors) > 0`. -/
def ExitState.renderErrorsBlock (es : ExitState) : String :=
  if es.LongServiceOutput ≠ "" ∨ es.LastError ≠ none ∨ es.Errors ≠ [] then
    CheckOutputEOL ++ CheckOutputEOL ++ "**" ++ es.getErrorsLabelText ++ "**" ++ CheckOutputEOL
    ++ (match es.LastError with
        | some e => "* " ++ e ++ CheckOutputEOL
        | none => "")
    ++ renderErrorItems es.Errors
    ++ (if es.LastError = none ∧ es.Errors = [] then
          CheckOutputEOL ++ "* None" ++ CheckOutputEOL
        else "")
    ++ (if es.LongServiceOutput ≠ "" then es.renderThresholdsAndDetails else "")
  else ""

/-- Rendering of one performance data metric in the trailing metrics line:
`" '%s'=%s%s;%s;%s;%s;%s"` (`nagios.go`). -/
def renderPerfDatum (pd : PerformanceData) : String :=
  " " ++ singleQuote ++ pd.Label ++ singleQuote ++ "=" ++ pd.Value
  ++ pd.UnitOfMeasurement ++ ";" ++ pd.Warn ++ ";" ++ pd.Crit
  ++ ";" ++ pd.Min ++ ";" ++ pd.Max

/-- Concatenation of the rendered metrics. -/
def renderPerfData : List PerformanceData → String
  | [] => ""
  | pd :: rest => renderPerfDatum pd ++ renderPerfData rest

/-- The trailing performance data line of `ReturnCheckResults`: emitted
only when the collection is non-empty AND a one-line summary is set. -/
def ExitState.renderPerfSection (es : ExitState) : String :=
  if es.perfData ≠ [] ∧ es.ServiceOutput ≠ "" then
    " |" ++ renderPerfData es.perfData ++ CheckOutputEOL
  else ""

/-- Everything `ReturnCheckResults` emits after the one-line summary:
the errors/thresholds/details block, the branding line, and the
performance data line, in source order. -/
def ExitState.renderAfterSummary (es : ExitState) : String :=
  es.renderErrorsBlock
  ++ (match es.BrandingCallback with
      | some b => CheckOutputEOL ++ b ++ CheckOutputEOL
      | none => "")
  ++ es.renderPerfSection

/-- Full rendered output of `ReturnCheckResults` (`nagios.go`): the
one-line summary is emitted first via `fmt.Print(es.ServiceOutput)`,
verbatim, with no formatting applied. -/
def ExitState.render (es : ExitState) : String :=
  es.ServiceOutput ++ es.renderAfterSummary

/-- `AddError` appends provided errors to the collection (`nagios.go`). -/
def ExitState.addError (es : ExitState) (errs : List (Option String)) : ExitState :=
  { es with Errors := es.Errors ++ errs }

/-- The panic-override block at the top of `ReturnCheckResults`
(`nagios.go` lines 259-288): given the recovered panic value and the
captured stack trace, append a synthesized error, replace the summary
with a CRITICAL crash message, replace the long output with the panic
value and stack trace wrapped in a Markdown fenced code block, and force
the exit status code to CRITICAL. -/
def ExitState.applyPanicOverride (es : ExitState) (panicErr stackTrace : String) : ExitState :=
  let es1 := es.addError [some ("plugin crash/panic detected: " ++ panicErr)]
  { es1 with
    ServiceOutput :=
      StateCRITICALLabel
      ++ ": plugin crash detected. See details via web UI or run plugin manually via CLI.",
    LongServiceOutput :=
      "```" ++ CheckOutputEOL ++ panicErr ++ CheckOutputEOL ++ CheckOutputEOL
      ++ stackTrace ++ CheckOutputEOL ++ "```",
    ExitStatusCode := StateCRITICALExitCode }

/-- `ReturnCheckResults` (`nagios.go`): `recovered` carries the recovered
panic value and stack trace when client code panicked (`recover()`
returning non-nil), else `none`.  The result is the full text written to
the output and the exit status code passed to `os.Exit`. -/
def ExitState.returnCheckResults (recovered : Option (String × String)) (es : ExitState) :
    String × Int :=
  let es' :=
    match recovered with
    | some pr => es.applyPanicOverride pr.1 pr.2
    | none => es
  (es'.render, es'.ExitStatusCode)

/-- `AddPerfData` on `ExitState` (`nagios.go` lines 473-491): an empty
variadic list is an error; unless validation is skipped every datum is
validated before any is appended; on success all are appended in order.
The Go method mutates the receiver and returns an error; this is modelled
as returning the new state together with an optional error, the state
being unchanged on the error paths. -/
def ExitState.addPerfData (es : ExitState) (skipValidate : Bool)
    (pd : List PerformanceData) : ExitState × Option String :=
  if pd = [] then (es, some "no performance data provided")
  else
    match (if skipValidate then none else firstValidateError pd) with
    | some e => (es, some e)
    | none => ({ es with perfData := es.perfData ++ pd }, none)

/-- Split a character list at the first occurrence of `c`: `some (l, r)`
with the list equal to `l ++ c :: r` and `c ∉ l`, or `none` when `c` does
not occur. -/
def splitFirst (c : Char) : List Char → Option (List Char × List Char)
  | [] => none
  | x :: xs =>
    if x = c then some ([], xs)
    else (splitFirst c xs).map fun pr => (x :: pr.1, pr.2)

/-- Numeric value of a list of decimal digit characters. -/
def natOfDigits (cs : List Char) : Nat :=
  cs.foldl (fun a c => a * 10 + (c.toNat - 48)) 0

/-- Modelled from the spec: an unsigned decimal literal (`digits`,
`digits.digits`, `digits.` or `.digits`), the numeric-literal form used
by the range-spec grammar of §4.1/§6 (the range implementation file is
not part of this source snapshot).  Returns the exact rational value. -/
def parseUnsignedDec (cs : List Char) : Option ℚ :=
  match splitFirst (Char.ofNat 46) cs with
  | none =>
    if cs ≠ [] ∧ cs.all Char.isDigit then some (natOfDigits cs) else none
  | some (ip, fp) =>
    if (ip ≠ [] ∨ fp ≠ []) ∧ ¬ fp.contains (Char.ofNat 46)
        ∧ ip.all Char.isDigit ∧ fp.all Char.isDigit then
      some (mkRat (natOfDigits ip * 10 ^ fp.length + natOfDigits fp) (10 ^ fp.length))
    else none

/-- Modelled from the spec: a signed decimal literal (optional leading
`+` or `-`). -/
def parseDec (cs : List Char) : Option ℚ :=
  match cs with
  | '+' :: rest => parseUnsignedDec rest
  | '-' :: rest => (parseUnsignedDec rest).map Neg.neg
  | _ => parseUnsignedDec cs

/-- Modelled from the spec (§3, §4.1): the `RangeSpec`/`Range` threshold
range value produced by `ParseRangeString` (the range implementation file
is not part of this source snapshot; field names follow the tests:
`Start`, `End`, `StartInfinity`, `EndInfinity`).  `Start` defaults to 0;
`AlertInsideRange` is set by a leading `@`. -/
structure RangeSpec where
  Start : ℚ := 0
  End : ℚ := 0
  StartInfinity : Bool := false
  EndInfinity : Bool := false
  AlertInsideRange : Bool := false
deriving DecidableEq, Repr

/-- Modelled from the spec (§4.1), the part of range parsing after the
optional `@` has been consumed: without a colon the remainder is `end`
with `start` defaulting to 0; with a colon, `left` is `start` (`~`
denoting negative infinity), `right` is `end` (empty denoting positive
infinity); an explicit `~` on the right is invalid; non-numeric tokens
are invalid; finite `start > end` is invalid. -/
def parseRangeCore (cs : List Char) (alertInside : Bool) : Option RangeSpec :=
  match splitFirst ':' cs with
  | none =>
    match parseDec cs with
    | none => none
    | some e =>
      if (0 : ℚ) > e then none
      else some { End := e, AlertInsideRange := alertInside }
  | some (l, r) =>
    if r = ['~'] then none
    else
      let sPart : Option (ℚ × Bool) :=
        if l = ['~'] then some (0, true) else (parseDec l).map fun q => (q, false)
      let ePart : Option (ℚ × Bool) :=
        if r = [] then some (0, true) else (parseDec r).map fun q => (q, false)
      match sPart, ePart with
      | some (sv, si), some (ev, ei) =>
        if si = false ∧ ei = false ∧ sv > ev then none
        else some { Start := sv, End := ev, StartInfinity := si,
                    EndInfinity := ei, AlertInsideRange := alertInside }
      | _, _ => none

/-- Modelled from the spec (§4.1): range parsing on a character list; an
optional leading `@` sets `AlertInsideRange` and the remainder is parsed
by `parseRangeCore`. -/
def parseRangeL (cs : List Char) : Option RangeSpec :=
  if cs.head? = some '@' then parseRangeCore cs.tail true
  else parseRangeCore cs false

/-- Modelled from the spec (§4.1): `ParseRangeString(spec) -> RangeSpec |
null`, `none` meaning the Go function returned nil. -/
def ParseRangeString (s : String) : Option RangeSpec :=
  parseRangeL s.data

/-- Modelled from the spec (§4.1, evaluation steps 2-3): whether a
numeric value falls in the alerting region of a range.  `inside` is
`(startInfinity || value ≥ start) && (endInfinity || value ≤ end)`; the
result is `inside` when `AlertInsideRange` and `!inside` otherwise. -/
def checkRangeVal (r : RangeSpec) (v : ℚ) : Bool :=
  let inside := (r.StartInfinity || decide (r.Start ≤ v))
                  && (r.EndInfinity || decide (v ≤ r.End))
  if r.AlertInsideRange then inside else !inside

/-- Modelled from the spec (§4.1, evaluation step 1): `CheckRange` takes
the value as a string and parses it first; a non-numeric value is an
error signalled to the caller, modelled as `none`. -/
def RangeSpec.CheckRange (r : RangeSpec) (value : String) : Option Bool :=
  (parseDec value.data).map (checkRangeVal r)

/-- Modelled from the spec (§4.4): parsing of one warn/crit threshold
field: an empty field means no range is configured (`ok none`); a
non-empty field that fails range parsing is an error. -/
def parseThresholdField (s : String) : Except Unit (Option RangeSpec) :=
  if s = "" then .ok none
  else
    match ParseRangeString s with
    | none => .error ()
    | some r => .ok (some r)

/-- Whether an optionally-configured range alerts at a value; an absent
range never alerts. -/
def rangeAlerts : Option RangeSpec → ℚ → Bool
  | none, _ => false
  | some r, v => checkRangeVal r v

/-- Modelled from the spec (§4.4): `EvaluateThreshold` over the owning
plugin's exit status code (the evaluator implementation file is not part
of this source snapshot).  The crit range is parsed first, then warn; a
present-but-invalid range yields status UNKNOWN plus a returned error
(the `Bool` component).  Otherwise the crit range is evaluated first: if
it alerts the status becomes CRITICAL and the warn check cannot downgrade
it; else an alerting warn range yields WARNING; else the status is left
unchanged.  A non-numeric datum value is an error signalled to the
caller (§4.1 step 1; the spec assigns it no status change). -/
def EvaluateThreshold (cur : Int) (d : PerformanceData) : Int × Bool :=
  match parseThresholdField d.Crit with
  | .error _ => (StateUNKNOWNExitCode, true)
  | .ok critR =>
    match parseThresholdField d.Warn with
    | .error _ => (StateUNKNOWNExitCode, true)
    | .ok warnR =>
      match parseDec d.Value.data with
      | none => (cur, true)
      | some v =>
        if rangeAlerts critR v then (StateCRITICALExitCode, false)
        else if rangeAlerts warnR v then (StateWARNINGExitCode, false)
        else (cur, false)

/-- Modelled from the spec (§4.2): whitespace tokenization of the
performance-data line, except that a quote character (single or double)
opens a quoted region within which spaces do not split; `cur` is the
current token accumulated in reverse, `inQ` the currently open quote
character. -/
def tokenizeFrom : List Char → List Char → Option Char → List (List Char)
  | [], cur, _ => if cur = [] then [] else [cur.reverse]
  | c :: rest, cur, some q =>
    if c = q then tokenizeFrom rest (c :: cur) none
    else tokenizeFrom rest (c :: cur) (some q)
  | c :: rest, cur, none =>
    if c = ' ' then
      if cur = [] then tokenizeFrom rest [] none
      else cur.reverse :: tokenizeFrom rest [] none
    else if c = singleQuoteChar ∨ c = doubleQuoteChar then
      tokenizeFrom rest (c :: cur) (some c)
    else tokenizeFrom rest (c :: cur) none

/-- Modelled from the spec (§4.2): split into metric tokens. -/
def tokenize (cs : List Char) : List (List Char) :=
  tokenizeFrom cs [] none

/-- Modelled from the spec (§4.2): one layer of quotes wrapped around the
whole performance-data line is detected and stripped before per-metric
tokenizing. -/
def stripOuterQuotes (cs : List Char) : List Char :=
  match cs with
  | [] => []
  | c :: rest =>
    if (c = singleQuoteChar ∨ c = doubleQuoteChar) ∧ rest.getLast? = some c then
      rest.dropLast
    else cs

/-- Modelled from the spec (§4.2): the label of a metric token, either
enclosed in quotes (then running to the matching close quote, spaces
included) or everything before the first `=`; the remainder after the
`=` is returned alongside. -/
def extractLabel (tok : List Char) : Option (List Char × List Char) :=
  match tok with
  | [] => none
  | c :: rest =>
    if c = singleQuoteChar ∨ c = doubleQuoteChar then
      match splitFirst c rest with
      | none => none
      | some (lbl, after) =>
        match after with
        | '=' :: value => some (lbl, value)
        | _ => none
    else splitFirst '=' tok

/-- Modelled from the spec (§4.2): split on `;`, preserving empty
segments positionally; the head is the segment before the first `;`. -/
def splitSemis : List Char → List Char × List (List Char)
  | [] => ([], [])
  | x :: xs =>
    let pr := splitSemis xs
    if x = ';' then ([], pr.1 :: pr.2) else (x :: pr.1, pr.2)

/-- Modelled from the spec (§4.2): the character class `[-+0-9.]` of a
numeric-looking value segment. -/
def isValueChar (c : Char) : Bool :=
  c.isDigit || c = '-' || c = '+' || c = '.'

/-- Modelled from the spec (§4.2): parse one metric token
`label=value[unit][;warn[;crit[;min[;max]]]]`.  The label must be
non-empty; the value is the longest numeric-looking prefix of the
segment before the first `;` and must be non-empty; the unit is the rest
of that segment; at most 4 semicolon-delimited fields (warn, crit, min,
max) may follow, kept positionally with empties preserved. -/
def parseMetricToken (tok : List Char) : Option PerformanceData :=
  match extractLabel tok with
  | none => none
  | some (lbl, rest) =>
    if lbl = [] then none
    else
      let pr := splitSemis rest
      let value := pr.1.takeWhile isValueChar
      let unit := pr.1.dropWhile isValueChar
      if value = [] then none
      else if 4 < pr.2.length then none
      else
        some { Label := String.mk lbl, Value := String.mk value,
               UnitOfMeasurement := String.mk unit,
               Warn := String.mk (pr.2.getD 0 []),
               Crit := String.mk (pr.2.getD 1 []),
               Min := String.mk (pr.2.getD 2 []),
               Max := String.mk (pr.2.getD 3 []) }

/-- Modelled from the spec (§4.2, failure policy): parse every metric
token; if any single token fails its grammar the entire parse fails with
no partial results. -/
def parseMetricTokens : List (List Char) → Option (List PerformanceData)
  | [] => some []
  | t :: ts =>
    match parseMetricToken t, parseMetricTokens ts with
    | some d, some ds => some (d :: ds)
    | _, _ => none

/-- Modelled from the spec (§4.2): `ParsePerfData` on a character list:
strip one layer of outer quotes, tokenize, fail on an empty line (no
metric tokens), and parse all tokens all-or-nothing. -/
def ParsePerfDataL (cs : List Char) : Option (List PerformanceData) :=
  let toks := tokenize (stripOuterQuotes cs)
  if toks = [] then none else parseMetricTokens toks

/-- Modelled from the spec (§4.2): `ParsePerfData(line)`; `none` models
the Go parse error (no data returned). -/
def ParsePerfData (s : String) : Option (List PerformanceData) :=
  ParsePerfDataL s.data

/-- Lowercased string, modelling Go `strings.ToLower` for the label keys
of the `Plugin` performance-data map. -/
def lowerStr (s : String) : String :=
  String.mk (s.data.map Char.toLower)

/-- Modelled from the spec (§4.3, design note §9): insertion into the
`Plugin` performance-data collection keyed by the lowercased label: a
datum whose case-insensitive label matches an existing entry overwrites
that entry (last-write-wins), otherwise the datum is appended.  The Go
map keyed by `strings.ToLower(pd.Label)` is modelled as a list of data
with pairwise-distinct lowercased labels. -/
def insertPerfData (m : List PerformanceData) (d : PerformanceData) : List PerformanceData :=
  if m.any fun x => lowerStr x.Label == lowerStr d.Label then
    m.map fun x => if lowerStr x.Label == lowerStr d.Label then d else x
  else m ++ [d]

/-- Modelled from the spec (§3, §4.3): the current `Plugin` aggregate, to
the extent needed by the performance-data collection claims (the plugin
implementation file of this version is not part of this source
snapshot). -/
structure Plugin where
  ExitStatusCode : Int := 0
  ServiceOutput : String := ""
  perfData : List PerformanceData := []
deriving DecidableEq, Repr

/-- Modelled from the spec (§4.3): `Plugin.AddPerfData`: an empty
variadic list is an error (as in the `ExitState` version of the method);
unless skipped, every datum is validated before any are inserted, a
validation failure aborting the whole call with no partial insertion; on
success each datum is inserted in order, keyed by its lowercased label
with last-write-wins overwrite semantics. -/
def Plugin.addPerfData (p : Plugin) (skipValidate : Bool)
    (pd : List PerformanceData) : Plugin × Option String :=
  if pd = [] then (p, some "no performance data provided")
  else
    match (if skipValidate then none else firstValidateError pd) with
    | some e => (p, some e)
    | none => ({ p with perfData := pd.foldl insertPerfData p.perfData }, none)

/-- The lowercased labels of a performance-data collection, in storage
order. -/
def lowerLabels (m : List PerformanceData) : List String :=
  m.map fun d => lowerStr d.Label

/-! ### Helper lemmas -/

theorem validate_eq_none_iff (d : PerformanceData) :
    d.Validate = none ↔ d.Label ≠ "" ∧ d.Value ≠ "" := by
  unfold PerformanceData.Validate
  split
  · simp_all
  · split <;> simp_all

theorem firstValidateError_eq_none_iff (pds : List PerformanceData) :
    firstValidateError pds = none ↔ ∀ d ∈ pds, d.Validate = none := by
  induction pds with
  | nil => simp [firstValidateError]
  | cons d ds ih =>
    cases h : d.Validate with
    | some e => simp [firstValidateError, h]
    | none => simp [firstValidateError, h, ih]

theorem splitFirst_append (c : Char) (pre post : List Char) (h : c ∉ pre) :
    splitFirst c (pre ++ c :: post) = some (pre, post) := by
  induction pre with
  | nil => simp [splitFirst]
  | cons x xs ih =>
    have hx : ¬ x = c := fun hxc => h (by simp [hxc])
    have hxs : c ∉ xs := fun hm => h (List.mem_cons_of_mem _ hm)
    simp [splitFirst, hx, ih hxs]

theorem parseMetricTokens_eq_none_of_mem (ts : List (List Char)) (t : List Char)
    (ht : t ∈ ts) (hfail : parseMetricToken t = none) :
    parseMetricTokens ts = none := by
  induction ts with
  | nil => cases ht
  | cons a as ih =>
    rcases List.mem_cons.mp ht with rfl | hmem
    · unfold parseMetricTokens
      rw [hfail]
    · unfold parseMetricTokens
      rw [ih hmem]
      cases parseMetricToken a <;> rfl

theorem lowerLabels_insertPerfData_nodup (m : List PerformanceData) (d : PerformanceData)
    (h : (lowerLabels m).Nodup) : (lowerLabels (insertPerfData m d)).Nodup := by
  unfold insertPerfData
  by_cases hmem : (m.any fun x => lowerStr x.Label == lowerStr d.Label) = true
  · rw [if_pos hmem]
    have hsame :
        lowerLabels (m.map fun x => if lowerStr x.Label == lowerStr d.Label then d else x)
          = lowerLabels m := by
      unfold lowerLabels
      rw [List.map_map]
      apply List.map_congr_left
      intro x _
      by_cases hc : lowerStr x.Label = lowerStr d.Label
      · simp [Function.comp, hc]
      · simp [Function.comp, hc]
    rw [hsame]
    exact h
  · rw [if_neg hmem]
    have hnotin : lowerStr d.Label ∉ lowerLabels m := by
      intro hin
      obtain ⟨x, hx, he⟩ := List.mem_map.mp hin
      exact hmem (List.any_eq_true.mpr ⟨x, hx, by simp [he]⟩)
    unfold lowerLabels at *
    rw [List.map_append]
    rw [List.nodup_append]
    refine ⟨h, List.nodup_singleton _, ?_⟩
    intro a ha hb
    simp only [List.map_cons, List.map_nil, List.mem_singleton] at hb
    exact hnotin (hb ▸ ha)

theorem lowerLabels_foldl_nodup (pds : List PerformanceData) (m : List PerformanceData)
    (h : (lowerLabels m).Nodup) :
    (lowerLabels (pds.foldl insertPerfData m)).Nodup := by
  induction pds generalizing m with
  | nil => exact h
  | cons d ds ih => exact ih _ (lowerLabels_insertPerfData_nodup m d h)

/-! ### Claim theorems -/

/-- C10: calling `AddPerfData` with zero performance-data values always
returns the error "no performance data provided" and leaves the stored
performance-data collection (indeed the whole state) unchanged, for both
values of the skip-validation flag. -/
theorem claim10_addPerfData_empty_list (es : ExitState) (skipValidate : Bool) :
    es.addPerfData skipValidate [] = (es, some "no performance data provided") := rfl

/-- The one-line summary from the interpolation regression test: it
contains literal `%` characters and printf-style-looking sequences. -/
def interpolationProbe : String :=
  "OK: Datastore HUSVM-DC1-vol6 space usage (0 VMs) is 0.01% of 18.0TB with 18.0TB remaining [WARNING: 90% , CRITICAL: 95%]"

/-- C9: the rendered output emits the one-line summary byte-for-byte
unchanged as its leading segment, with no interpolation applied — the
renderer embeds `fmt.Print(es.ServiceOutput)`, which applies no
formatting; in particular the `%`-laden regression-test summary passes
through unchanged when it is the only populated field. -/
theorem claim9_serviceOutput_verbatim :
    (∀ es : ExitState, ∃ rest, es.render = es.ServiceOutput ++ rest)
    ∧ ExitState.render { ServiceOutput := interpolationProbe } = interpolationProbe := by
  constructor
  · exact fun es => ⟨es.renderAfterSummary, rfl⟩
  · decide

/-- C7: when an unrecovered panic reaches `ReturnCheckResults`, before
rendering, a synthesized error describing the panic is appended to the
error collection, the one-line summary is replaced by the CRITICAL crash
message, the long output is replaced by the panic value and stack trace
wrapped in a Markdown fenced code block, and the exit status code is
forced to CRITICAL (2) regardless of what calling code had set. -/
theorem claim7_panic_override (es : ExitState) (panicErr stackTrace : String) :
    (es.applyPanicOverride panicErr stackTrace).Errors
        = es.Errors ++ [some ("plugin crash/panic detected: " ++ panicErr)]
    ∧ (es.applyPanicOverride panicErr stackTrace).ServiceOutput
        = StateCRITICALLabel
          ++ ": plugin crash detected. See details via web UI or run plugin manually via CLI."
    ∧ (es.applyPanicOverride panicErr stackTrace).LongServiceOutput
        = "```" ++ CheckOutputEOL ++ panicErr ++ CheckOutputEOL ++ CheckOutputEOL
          ++ stackTrace ++ CheckOutputEOL ++ "```"
    ∧ (es.applyPanicOverride panicErr stackTrace).ExitStatusCode = StateCRITICALExitCode
    ∧ ExitState.returnCheckResults (some (panicErr, stackTrace)) es
        = ((es.applyPanicOverride panicErr stackTrace).render, StateCRITICALExitCode) :=
  ⟨rfl, rfl, rfl, rfl, rfl⟩

/-- C6: on `AddPerfData(false, d1..dn)` with n ≥ 1, a datum with an empty
label or empty value makes the whole call return an error with the state
left exactly as it was (no partial insertion); when all data validate,
all are appended in order and no error is returned. -/
theorem claim6_addPerfData_validation (es : ExitState) (pds : List PerformanceData)
    (hne : pds ≠ []) :
    ((∃ d ∈ pds, d.Label = "" ∨ d.Value = "") →
        ∃ e, es.addPerfData false pds = (es, some e))
    ∧ ((∀ d ∈ pds, d.Label ≠ "" ∧ d.Value ≠ "") →
        es.addPerfData false pds = ({ es with perfData := es.perfData ++ pds }, none)) := by
  constructor
  · rintro ⟨d, hd, hbad⟩
    have hdv : d.Validate ≠ none := by
      intro h
      rcases (validate_eq_none_iff d).mp h with ⟨h1, h2⟩
      rcases hbad with hb | hb
      · exact h1 hb
      · exact h2 hb
    have hfe : firstValidateError pds ≠ none := fun h =>
      hdv ((firstValidateError_eq_none_iff pds).mp h d hd)
    unfold ExitState.addPerfData
    rw [if_neg hne]
    cases h : firstValidateError pds with
    | none => exact absurd h hfe
    | some e => exact ⟨e, by simp [h]⟩
  · intro hall
    have hfe : firstValidateError pds = none :=
      (firstValidateError_eq_none_iff pds).mpr fun d hd =>
        (validate_eq_none_iff d).mpr (hall d hd)
    unfold ExitState.addPerfData
    rw [if_neg hne]
    simp [hfe]

/-- Witness for C6 at concrete inputs: the error case at a one-element
list with an empty value, the success case at a valid two-element list. -/
theorem claim6_addPerfData_validation_witness :
    (([({ Label := "used", Value := "" } : PerformanceData)] : List PerformanceData) ≠ []
      ∧ ∃ e, ExitState.addPerfData {} false [{ Label := "used", Value := "" }] = ({}, some e))
    ∧ (ExitState.addPerfData {} false [{ Label := "a", Value := "1" }, { Label := "b", Value := "2" }]
        = ({ perfData := [{ Label := "a", Value := "1" }, { Label := "b", Value := "2" }] }, none)) :=
  ⟨⟨by decide,
    (claim6_addPerfData_validation {} [{ Label := "used", Value := "" }] (by decide)).1
      ⟨({ Label := "used", Value := "" } : PerformanceData), by decide, by decide⟩⟩,
   (claim6_addPerfData_validation {} [{ Label := "a", Value := "1" }, { Label := "b", Value := "2" }]
      (by decide)).2 (by decide)⟩

/-- A `CheckResult` with an empty one-line summary but populated long
text, errors, threshold display string, and performance data: in the
rendered output of `ReturnCheckResults` the ERRORS/THRESHOLDS/DETAILED
INFO sections still appear. -/
def emptySummaryPopulated : ExitState :=
  { ServiceOutput := "",
    LongServiceOutput := "detailed text",
    Errors := [some "an error"],
    CriticalThreshold := "95",
    WarningThreshold := "90",
    perfData := [{ Label := "time", Value := "49", UnitOfMeasurement := "ms" }] }

/-- C2 counterexample: a `CheckResult` with empty summary but populated
long text and errors renders non-empty output — the section rendering in
`ReturnCheckResults` is guarded by the long text and error fields, not by
the summary, so the claim "empty summary produces zero bytes regardless
of long text and accumulated errors" is false on this code. -/
theorem claim2_empty_summary_counterexample :
    (ExitState.returnCheckResults none emptySummaryPopulated).1 ≠ "" := by decide

/-- C2 (amended): with an empty one-line summary the finalize operation
writes zero bytes provided the long text is empty, no errors are
recorded, and no branding callback is set — threshold display strings and
stored performance data may be arbitrary — and the exit code is the
stored one, unchanged.  Moreover for every state with an empty summary
the performance-data line is suppressed entirely. -/
theorem claim2_empty_summary_amended :
    (∀ es : ExitState, es.ServiceOutput = "" → es.LongServiceOutput = "" →
        es.LastError = none → es.Errors = [] → es.BrandingCallback = none →
        ExitState.returnCheckResults none es = ("", es.ExitStatusCode))
    ∧ (∀ es : ExitState, es.ServiceOutput = "" → es.renderPerfSection = "") := by
  constructor
  · intro es h1 h2 h3 h4 h5
    unfold ExitState.returnCheckResults ExitState.render ExitState.renderAfterSummary
      ExitState.renderErrorsBlock ExitState.renderPerfSection
    simp [h1, h2, h3, h4, h5]
  · intro es h
    unfold ExitState.renderPerfSection
    simp [h]

/-- Witness for C2's amended theorem at a concrete state with populated
thresholds and performance data, empty summary, and exit code 1. -/
theorem claim2_empty_summary_amended_witness :
    ExitState.returnCheckResults none
        { ServiceOutput := "", CriticalThreshold := "95", WarningThreshold := "90",
          perfData := [{ Label := "time", Value := "49", UnitOfMeasurement := "ms" }],
          ExitStatusCode := 1 }
      = ("", 1) :=
  claim2_empty_summary_amended.1
    { ServiceOutput := "", CriticalThreshold := "95", WarningThreshold := "90",
      perfData := [{ Label := "time", Value := "49", UnitOfMeasurement := "ms" }],
      ExitStatusCode := 1 } rfl rfl rfl rfl rfl

/-- C4: parsing any range-spec string whose portion after the (first)
colon is the explicit positive-infinity token `~` returns no value; in
particular `ParseRangeString "50:~"` returns `none`. -/
theorem claim4_positive_infinity_end_invalid :
    (∀ pre : List Char, ':' ∉ pre → parseRangeL (pre ++ ':' :: ['~']) = none)
    ∧ ParseRangeString "50:~" = none := by
  constructor
  · intro pre hpre
    cases pre with
    | nil => decide
    | cons x xs =>
      have hxs : ':' ∉ xs := fun hm => hpre (List.mem_cons_of_mem _ hm)
      by_cases hat : x = '@'
      · subst hat
        have : parseRangeL (('@' :: xs) ++ ':' :: ['~'])
            = parseRangeCore (xs ++ ':' :: ['~']) true := by
          simp [parseRangeL]
        rw [this]
        unfold parseRangeCore
        rw [splitFirst_append ':' xs ['~'] hxs]
        simp
      · have : parseRangeL ((x :: xs) ++ ':' :: ['~'])
            = parseRangeCore ((x :: xs) ++ ':' :: ['~']) false := by
          simp [parseRangeL, hat]
        rw [this]
        unfold parseRangeCore
        rw [splitFirst_append ':' (x :: xs) ['~'] hpre]
        simp
  · decide

/-- Witness for C4 at the concrete prefix `50`. -/
theorem claim4_positive_infinity_end_invalid_witness :
    (':' ∉ "50".data) ∧ parseRangeL ("50".data ++ ':' :: ['~']) = none :=
  ⟨by decide, claim4_positive_infinity_end_invalid.1 "50".data (by decide)⟩

/-- C3: for every successfully parsed range spec and every numeric value
`v`, `CheckRange` alerts exactly on the alerting region: with
`AlertInsideRange` false it alerts iff `v < Start` (unless
`StartInfinity`) or `v > End` (unless `EndInfinity`); with
`AlertInsideRange` true it alerts iff `v` lies in the closed interval
(an infinite endpoint dropping the corresponding comparison, as in the
default mode).  Boundaries belong to the closed interval in both modes:
`@32:32` alerts exactly at 32 and `10:` does not alert at 10. -/
theorem claim3_checkRange_alert_regions (s : String) (r : RangeSpec)
    (hp : ParseRangeString s = some r) (v : ℚ) :
    (r.AlertInsideRange = false →
      (checkRangeVal r v = true ↔
        ((r.StartInfinity = false ∧ v < r.Start) ∨ (r.EndInfinity = false ∧ r.End < v))))
    ∧ (r.AlertInsideRange = true →
      (checkRangeVal r v = true ↔
        ((r.StartInfinity = true ∨ r.Start ≤ v) ∧ (r.EndInfinity = true ∨ v ≤ r.End))))
    ∧ (s = "@32:32" → (checkRangeVal r v = true ↔ v = 32))
    ∧ (s = "10:" → checkRangeVal r 10 = false) := by
  refine ⟨?_, ?_, ?_, ?_⟩
  · intro hmode
    cases hSI : r.StartInfinity <;> cases hEI : r.EndInfinity <;>
      simp [checkRangeVal, hmode, hSI, hEI, not_le]
  · intro hmode
    cases hSI : r.StartInfinity <;> cases hEI : r.EndInfinity <;>
      simp [checkRangeVal, hmode, hSI, hEI]
  · intro hs
    subst hs
    have h32 : ParseRangeString "@32:32"
        = some { Start := 32, End := 32, AlertInsideRange := true } := by decide
    rw [h32] at hp
    have hr := Option.some.inj hp
    subst hr
    simp only [checkRangeVal, Bool.or_eq_true, Bool.and_eq_true, decide_eq_true_eq, if_true]
    constructor
    · rintro ⟨h1, h2⟩
      exact le_antisymm (h2.resolve_left (by simp)) (h1.resolve_left (by simp))
    · rintro rfl
      exact ⟨Or.inr (le_refl _), Or.inr (le_refl _)⟩
  · intro hs
    subst hs
    have h10 : ParseRangeString "10:" = some { Start := 10, EndInfinity := true } := by decide
    rw [h10] at hp
    have hr := Option.some.inj hp
    subst hr
    decide

/-- Witness for C3 at the parsed `@32:32` range and the value 32. -/
theorem claim3_checkRange_alert_regions_witness :
    ParseRangeString "@32:32" = some { Start := 32, End := 32, AlertInsideRange := true }
    ∧ (checkRangeVal { Start := 32, End := 32, AlertInsideRange := true } 32 = true
        ↔ (32 : ℚ) = 32) :=
  ⟨by decide, (claim3_checkRange_alert_regions "@32:32" _ (by decide) 32).2.2.1 rfl⟩

/-- C5: on a datum with a numeric value, `EvaluateThreshold` yields
status UNKNOWN plus a returned error whenever the crit or warn range is
present but unparseable; otherwise an alerting crit range yields
CRITICAL (not downgraded by the warn check in the same call), else an
alerting warn range yields WARNING, else the status is left unchanged. -/
theorem claim5_evaluateThreshold_ordering (cur : Int) (d : PerformanceData) (v : ℚ)
    (hv : parseDec d.Value.data = some v) :
    ((parseThresholdField d.Crit = .error () ∨ parseThresholdField d.Warn = .error ()) →
        EvaluateThreshold cur d = (StateUNKNOWNExitCode, true))
    ∧ (∀ critR warnR, parseThresholdField d.Crit = .ok critR →
        parseThresholdField d.Warn = .ok warnR →
        (rangeAlerts critR v = true →
            EvaluateThreshold cur d = (StateCRITICALExitCode, false))
        ∧ (rangeAlerts critR v = false → rangeAlerts warnR v = true →
            EvaluateThreshold cur d = (StateWARNINGExitCode, false))
        ∧ (rangeAlerts critR v = false → rangeAlerts warnR v = false →
            EvaluateThreshold cur d = (cur, false))) := by
  constructor
  · intro hbad
    unfold EvaluateThreshold
    rcases hbad with hb | hb
    · rw [hb]
    · cases hc : parseThresholdField d.Crit with
      | error u => rfl
      | ok cr => rw [hb]
  · intro critR warnR hc hw
    unfold EvaluateThreshold
    rw [hc, hw, hv]
    refine ⟨?_, ?_, ?_⟩
    · intro ha
      simp [ha]
    · intro ha hb
      simp [ha, hb]
    · intro ha hb
      simp [ha, hb]

/-- The CRITICAL-alerting datum of the threshold test: value 41.0 with
warn range 5:30 and crit range 0:40. -/
def thresholdCritDatum : PerformanceData :=
  { Label := "perfdata label", Value := "41.0", UnitOfMeasurement := "C",
    Warn := "5:30", Crit := "0:40" }

/-- Witness for C5 at the CRITICAL test datum: value 41.0 against crit
range 0:40 and warn range 5:30 drives an OK status to CRITICAL with no
error. -/
theorem claim5_evaluateThreshold_ordering_witness :
    parseDec thresholdCritDatum.Value.data = some 41
    ∧ EvaluateThreshold StateOKExitCode thresholdCritDatum = (StateCRITICALExitCode, false) :=
  ⟨by decide,
   ((claim5_evaluateThreshold_ordering StateOKExitCode thresholdCritDatum 41 (by decide)).2
      (some { Start := 0, End := 40 }) (some { Start := 5, End := 30 })
      (by decide) (by decide)).1 (by decide)⟩

/-- C8: `ParsePerfData` is all-or-nothing: the empty line fails; any
metric token that fails its grammar makes the whole parse fail with no
partial results; a token with an empty label fails; a token whose value
segment has no numeric-looking prefix (`[-+0-9.]+`) fails; the invalid
inputs of the parser test suite (unquoted labels with spaces, a
non-numeric value, an empty label) all fail. -/
theorem claim8_parsePerfData_all_or_nothing :
    (ParsePerfData "" = none)
    ∧ (∀ cs t : List Char, t ∈ tokenize (stripOuterQuotes cs) →
        parseMetricToken t = none → ParsePerfDataL cs = none)
    ∧ (∀ tok rest : List Char, extractLabel tok = some ([], rest) →
        parseMetricToken tok = none)
    ∧ (∀ tok lbl rest : List Char, extractLabel tok = some (lbl, rest) →
        (splitSemis rest).1.takeWhile isValueChar = [] → parseMetricToken tok = none)
    ∧ (ParsePerfData "load 1=0.260;5.000;10.000;0; load 5=0.320;4.000;6.000;0; load 15=0.300;3.000;4.000;0;" = none
       ∧ ParsePerfData "load1=xyz;5.000;10.000;0; load5=0.320;4.000;6.000;0; load15=0.300;3.000;4.000;0;" = none
       ∧ ParsePerfData "=1;5.000;10.000;0; load5=0.320;4.000;6.000;0; load15=0.300;3.000;4.000;0;" = none) := by
  refine ⟨by decide, ?_, ?_, ?_, by decide, by decide, by decide⟩
  · intro cs t ht hf
    unfold ParsePerfDataL
    rw [if_neg (List.ne_nil_of_mem ht)]
    exact parseMetricTokens_eq_none_of_mem _ _ ht hf
  · intro tok rest h
    unfold parseMetricToken
    rw [h]
    rfl
  · intro tok lbl rest h hval
    unfold parseMetricToken
    rw [h]
    dsimp only
    by_cases hl : lbl = []
    · simp [hl]
    · rw [if_neg hl]
      simp [hval]

/-- Witness for C8 at the non-numeric-value test input: the first token
fails its grammar and the whole line fails to parse. -/
theorem claim8_parsePerfData_all_or_nothing_witness :
    ("load1=xyz;5.000;10.000;0;".data
        ∈ tokenize (stripOuterQuotes "load1=xyz;5.000;10.000;0; load5=0.320;4.000;6.000;0; load15=0.300;3.000;4.000;0;".data)
      ∧ parseMetricToken "load1=xyz;5.000;10.000;0;".data = none)
    ∧ ParsePerfDataL "load1=xyz;5.000;10.000;0; load5=0.320;4.000;6.000;0; load15=0.300;3.000;4.000;0;".data = none :=
  ⟨⟨by decide, by decide⟩,
   claim8_parsePerfData_all_or_nothing.2.1
     "load1=xyz;5.000;10.000;0; load5=0.320;4.000;6.000;0; load15=0.300;3.000;4.000;0;".data
     "load1=xyz;5.000;10.000;0;".data (by decide) (by decide)⟩

/-- The first `AddPerfData` call of the duplication test: labels `test1`
(twice), `TEST1`, `teST1`, `test2`. -/
def dupLabelsCall1 : List PerformanceData :=
  [{ Label := "test1", Value := "1" }, { Label := "test1", Value := "1" },
   { Label := "TEST1", Value := "1" }, { Label := "teST1", Value := "1" },
   { Label := "test2", Value := "1" }]

/-- The second `AddPerfData` call of the duplication test: the first
list plus one more `test1` datum. -/
def dupLabelsCall2 : List PerformanceData :=
  dupLabelsCall1 ++ [{ Label := "test1", Value := "1" }]

/-- C1: across every sequence of `Plugin.AddPerfData` calls the stored
collection never holds two entries whose labels agree after lowercasing
(the pairwise-distinct lowercased-labels invariant is preserved by every
call); a later datum whose case-insensitive label matches an existing
entry overwrites it in place instead of being appended; and the
duplication test scenario (labels `test1`, `test1`, `TEST1`, `teST1`,
`test2`, then all of those plus `test1` again) stores exactly 2
metrics. -/
theorem claim1_addPerfData_dedup :
    (∀ (p : Plugin) (sk : Bool) (pds : List PerformanceData) (p' : Plugin) (e : Option String),
        p.addPerfData sk pds = (p', e) → (lowerLabels p.perfData).Nodup →
        (lowerLabels p'.perfData).Nodup)
    ∧ (∀ (m : List PerformanceData) (d : PerformanceData),
        lowerStr d.Label ∈ lowerLabels m →
        (insertPerfData m d).length = m.length ∧ d ∈ insertPerfData m d)
    ∧ (((({} : Plugin).addPerfData false dupLabelsCall1).1.addPerfData
          false dupLabelsCall2).1.perfData.length = 2) := by
  refine ⟨?_, ?_, by decide⟩
  · intro p sk pds p' e heq hnd
    unfold Plugin.addPerfData at heq
    by_cases hpe : pds = []
    · rw [if_pos hpe] at heq
      cases heq
      exact hnd
    · rw [if_neg hpe] at heq
      cases hval : (if sk then none else firstValidateError pds) with
      | some err =>
        rw [hval] at heq
        cases heq
        exact hnd
      | none =>
        rw [hval] at heq
        cases heq
        exact lowerLabels_foldl_nodup pds p.perfData hnd
  · intro m d hmem
    obtain ⟨x, hx, he⟩ := List.mem_map.mp hmem
    have hany : (m.any fun x => lowerStr x.Label == lowerStr d.Label) = true :=
      List.any_eq_true.mpr ⟨x, hx, by simp [he]⟩
    unfold insertPerfData
    rw [if_pos hany]
    exact ⟨List.length_map _ _, List.mem_map.mpr ⟨x, hx, by simp [he]⟩⟩

/-- Witness for C1: the first duplication-test call stores exactly the
`teST1` (last write for the `test1` key) and `test2` data, with no
error, and the invariant holds for the result. -/
theorem claim1_addPerfData_dedup_witness :
    Plugin.addPerfData {} false dupLabelsCall1
      = ({ perfData := [{ Label := "teST1", Value := "1" }, { Label := "test2", Value := "1" }] },
         none)
    ∧ (lowerLabels
        ({ perfData := [{ Label := "teST1", Value := "1" },
                        { Label := "test2", Value := "1" }] } : Plugin).perfData).Nodup :=
  ⟨by decide, claim1_addPerfData_dedup.1 {} false dupLabelsCall1 _ none (by decide) (by decide)⟩

end GoNagios
